import Mathlib

/-!
Shallow embedding of the ChemTexSummuryCreator client (src/main.rs): the
duration formatter, URL normalization, MIME detection, output-path
derivation, the upload-envelope handling of upload_file, and the
poll_status loop, modelled as pure functions over decoded service
responses.  Network transport is modelled by supplying the sequence of
decoded status responses as a stream, counting issued requests and sleeps.
-/

/-- Base address of the remote compilation service (const BASE_URL). -/
def BASE_URL : String := "https://texcompile.ru"

/-- Poll interval in seconds (const POLL_INTERVAL_SECS). -/
def POLL_INTERVAL_SECS : Nat := 5

/-- Maximum number of poll attempts (const MAX_POLL_ATTEMPTS). -/
def MAX_POLL_ATTEMPTS : Nat := 120

/-- Embeds Rust str::starts_with for string patterns: the pattern's
character sequence is a prefix of the subject's character sequence. -/
def strStartsWith (s p : String) : Bool := p.data.isPrefixOf s.data

/-- Embeds Rust str::ends_with for string patterns: the pattern's
character sequence is a suffix of the subject's character sequence. -/
def strEndsWith (s p : String) : Bool := p.data.isSuffixOf s.data

/-- Embeds enum CompilationStatus. -/
inductive CompilationStatus where
  | Queued
  | Processing
  | Completed
  | Failed
  | Unknown (raw : String)
deriving DecidableEq

/-- Embeds CompilationStatus::from_str (a match on the literal strings). -/
def CompilationStatus.from_str (s : String) : CompilationStatus :=
  if s = "Queued" then .Queued
  else if s = "Processing" then .Processing
  else if s = "Completed" then .Completed
  else if s = "Failed" then .Failed
  else .Unknown s

/-- Embeds struct StatusData (the decoded payload of a status envelope). -/
structure StatusData where
  status : String
  download_url : Option String
  error_message : Option String
  duration : Option Nat
  queue_position : Option Nat
deriving DecidableEq

/-- Embeds struct StatusResponse (the decoded status envelope). -/
structure StatusResponse where
  success : Bool
  data : Option StatusData
  error : Option String
deriving DecidableEq

/-- Embeds StatusData::compilation_status. -/
def StatusData.compilation_status (sd : StatusData) : CompilationStatus :=
  CompilationStatus.from_str sd.status

/-- Embeds fn format_milliseconds. -/
def format_milliseconds (ms : Nat) : String :=
  let seconds := ms / 1000
  if seconds < 60 then
    toString seconds ++ " сек."
  else
    let minutes := seconds / 60
    let remaining_seconds := seconds % 60
    if minutes < 60 then
      toString minutes ++ " мин. " ++ toString remaining_seconds ++ " сек."
    else
      let hours := minutes / 60
      let remaining_minutes := minutes % 60
      toString hours ++ " ч. " ++ toString remaining_minutes ++ " м."

/-- Embeds StatusData::format_duration. -/
def StatusData.format_duration (sd : StatusData) : String :=
  match sd.duration with
  | some ms => format_milliseconds ms
  | none => "неизвестно"

/-- Embeds fn normalize_url. -/
def normalize_url (url : String) : String :=
  if strStartsWith url "http://" || strStartsWith url "https://" then
    url
  else if strStartsWith url "/" then
    BASE_URL ++ url
  else
    BASE_URL ++ "/" ++ url

instance {ε α : Type} [DecidableEq ε] [DecidableEq α] : DecidableEq (Except ε α) :=
  fun a b =>
    match a, b with
    | .ok x, .ok y => if h : x = y then isTrue (by rw [h]) else isFalse (by simp [h])
    | .ok _, .error _ => isFalse (by simp)
    | .error _, .ok _ => isFalse (by simp)
    | .error x, .error y => if h : x = y then isTrue (by rw [h]) else isFalse (by simp [h])

/-- The distinct failure modes of poll_status, one per anyhow::bail! or
.context site, each carrying the data interpolated into its message. -/
inductive PollError where
  | statusCheckError (msg : String)
  | noStatusData
  | noDownloadUrl
  | compilationFailed (durationInfo : String) (errorMsg : String)
  | pollTimeout (attempts : Nat)
deriving DecidableEq

/-- Observable result of a run of poll_status over a stream of decoded
status envelopes: the returned value or error, the number of issued
status requests, the list of slept durations (seconds, one entry per
sleep call), and the printed progress lines in order. -/
structure PollResult where
  outcome : Except PollError String
  requests : Nat
  sleeps : List Nat
  log : List String
deriving DecidableEq

/-- Embeds the queue_info binding of the Queued arm of poll_status:
queue_position filtered to positive, rendered, defaulting to empty. -/
def queue_info (qp : Option Nat) : String :=
  ((qp.filter fun pos => decide (0 < pos)).map
    fun pos => " (position: " ++ toString pos ++ ")").getD ""

/-- One continuing iteration of the poll loop: a request was issued, a
progress line printed, and a sleep taken only when attempt < MAX_POLL_ATTEMPTS,
before the rest of the loop ran. -/
def step_continue (entry : String) (attempt : Nat) (rest : PollResult) : PollResult :=
  { outcome := rest.outcome
    requests := rest.requests + 1
    sleeps := if attempt < MAX_POLL_ATTEMPTS then POLL_INTERVAL_SECS :: rest.sleeps
              else rest.sleeps
    log := entry :: rest.log }

/-- Embeds the body of fn poll_status: the for loop over attempts,
driven by the stream of decoded status envelopes (replies attempt is the
envelope received by the request of that attempt).  The remaining
argument is the number of loop iterations left; exhausting it is the
loop running to completion, which bails with the timeout error. -/
def poll_status_aux (replies : Nat → StatusResponse) : Nat → Nat → PollResult
  | 0, _ =>
    { outcome := .error (.pollTimeout MAX_POLL_ATTEMPTS)
      requests := 0, sleeps := [], log := [] }
  | remaining + 1, attempt =>
    let resp := replies attempt
    if resp.success = false then
      { outcome := .error (.statusCheckError (resp.error.getD "Unknown error"))
        requests := 1, sleeps := [], log := [] }
    else
      match resp.data with
      | none =>
        { outcome := .error .noStatusData, requests := 1, sleeps := [], log := [] }
      | some status_data =>
        match status_data.compilation_status with
        | .Queued =>
          step_continue
            ("Status: Queued" ++ queue_info status_data.queue_position
              ++ " | Time in queue: " ++ status_data.format_duration)
            attempt (poll_status_aux replies remaining (attempt + 1))
        | .Processing =>
          step_continue
            ("Status: Processing... | Time: " ++ status_data.format_duration)
            attempt (poll_status_aux replies remaining (attempt + 1))
        | .Completed =>
          let entry := "Status: Completed! | Compilation time: "
            ++ status_data.format_duration
          match status_data.download_url with
          | some url =>
            { outcome := .ok url, requests := 1, sleeps := [], log := [entry] }
          | none =>
            { outcome := .error .noDownloadUrl
              requests := 1, sleeps := [], log := [entry] }
        | .Failed =>
          { outcome := .error (.compilationFailed status_data.format_duration
              (status_data.error_message.getD "Unknown error"))
            requests := 1, sleeps := [], log := [] }
        | .Unknown s =>
          step_continue ("Status: " ++ s ++ " (unknown)")
            attempt (poll_status_aux replies remaining (attempt + 1))

/-- Embeds fn poll_status: the loop runs attempts 1..=MAX_POLL_ATTEMPTS. -/
def poll_status (replies : Nat → StatusResponse) : PollResult :=
  poll_status_aux replies MAX_POLL_ATTEMPTS 1

/-- The statuses the loop revisits: Queued, Processing and Unknown. -/
def isNonTerminalStatus (c : CompilationStatus) : Bool :=
  match c with
  | .Queued | .Processing | .Unknown _ => true
  | .Completed | .Failed => false

/-- The statuses that end the loop on their attempt: Completed and Failed. -/
def isTerminalStatus (c : CompilationStatus) : Bool :=
  match c with
  | .Completed | .Failed => true
  | .Queued | .Processing | .Unknown _ => false

/-- A decoded status envelope that the loop treats as non-terminal: a
success envelope with data whose status is Queued, Processing or Unknown. -/
def okNonTerminal (r : StatusResponse) : Bool :=
  r.success &&
    match r.data with
    | some sd => isNonTerminalStatus sd.compilation_status
    | none => false

/-- A decoded status envelope that ends the loop on its attempt: a
success envelope with data whose status is Completed or Failed. -/
def okTerminal (r : StatusResponse) : Bool :=
  r.success &&
    match r.data with
    | some sd => isTerminalStatus sd.compilation_status
    | none => false

/-- Embeds struct UploadData. -/
structure UploadData where
  task_id : String
deriving DecidableEq

/-- Embeds struct UploadResponse (the decoded upload envelope). -/
structure UploadResponse where
  success : Bool
  data : Option UploadData
  error : Option String
  message : Option String
deriving DecidableEq

/-- The failure modes of upload_file below the transport level, one per
bail!/context site of the source. -/
inductive UploadError where
  | unsupportedFileType
  | uploadFailed (msg : String)
  | noTaskId
deriving DecidableEq

/-- Observable result of a run of upload_file over a decoded upload
envelope: the returned task id or error, and the number of HTTP requests
issued. -/
structure UploadOutcome where
  result : Except UploadError String
  requests : Nat
deriving DecidableEq

/-- Embeds fn mime_type_from_filename. -/
def mime_type_from_filename (filename : String) : Except UploadError String :=
  if strEndsWith filename ".tex" then .ok "text/x-tex"
  else if strEndsWith filename ".zip" then .ok "application/zip"
  else .error .unsupportedFileType

/-- Embeds fn upload_file over the decoded upload envelope: the MIME type
is computed (and its error propagated) while building the multipart form,
before any request is sent; only then is the request issued and the
envelope decoded and checked. -/
def upload_file (file_name : String) (reply : UploadResponse) : UploadOutcome :=
  match mime_type_from_filename file_name with
  | .error e => { result := .error e, requests := 0 }
  | .ok _mime =>
    if reply.success = false then
      let error_msg := (reply.error.or reply.message).getD "Unknown error"
      { result := .error (.uploadFailed error_msg), requests := 1 }
    else
      match reply.data with
      | some d => { result := .ok d.task_id, requests := 1 }
      | none => { result := .error .noTaskId, requests := 1 }

/-- Embeds Path::new(name).file_stem().and_then(to_str) for a file-name
component (the argument of generate_output_path is the file_name of the
input path): empty, "." and ".." have no file name; otherwise the stem is
everything before the last '.' that is not the leading character, or the
whole name when there is no such '.'. -/
def rust_file_stem (name : String) : Option String :=
  if name = "" then none
  else if name = "." then none
  else if name = ".." then none
  else
    let chars := name.data
    let tail := chars.drop 1
    if tail.contains '.' then
      let revIdx := tail.reverse.indexOf '.'
      let dotIdxInTail := tail.length - 1 - revIdx
      some (String.mk (chars.take (dotIdxInTail + 1)))
    else some name

/-- Embeds fn generate_output_path. -/
def generate_output_path (input_file_name : String) : Except String String :=
  match rust_file_stem input_file_name with
  | some output_name => .ok (output_name ++ ".pdf")
  | none => .error "Invalid file name"

/-- A decoded Queued status envelope with no optional fields. -/
def queuedR : StatusResponse :=
  { success := true
    data := some { status := "Queued", download_url := none, error_message := none,
                   duration := none, queue_position := none }
    error := none }

/-- A decoded Processing status envelope with a 3000 ms duration. -/
def processingR : StatusResponse :=
  { success := true
    data := some { status := "Processing", download_url := none, error_message := none,
                   duration := some 3000, queue_position := none }
    error := none }

/-- A decoded Completed status envelope with a download reference. -/
def completedR : StatusResponse :=
  { success := true
    data := some { status := "Completed", download_url := some "/files/out.pdf",
                   error_message := none, duration := some 12000,
                   queue_position := none }
    error := none }

/-- A decoded Failed status envelope with message "missing package" and
duration 12000 ms (the spec's example). -/
def failedR : StatusResponse :=
  { success := true
    data := some { status := "Failed", download_url := none,
                   error_message := some "missing package", duration := some 12000,
                   queue_position := none }
    error := none }

/-- A decoded Failed status envelope with no error message and no duration. -/
def failedNoMsgR : StatusResponse :=
  { success := true
    data := some { status := "Failed", download_url := none, error_message := none,
                   duration := none, queue_position := none }
    error := none }

/-- A decoded Queued status envelope that carries queue position 0. -/
def queuedPos0R : StatusResponse :=
  { success := true
    data := some { status := "Queued", download_url := none, error_message := none,
                   duration := none, queue_position := some 0 }
    error := none }

/-- A decoded Completed status envelope without a download reference. -/
def completedNoUrlR : StatusResponse :=
  { success := true
    data := some { status := "Completed", download_url := none, error_message := none,
                   duration := none, queue_position := none }
    error := none }

/-- The spec's example reply sequence Queued, Queued, Processing,
Completed(url), indexed by attempt number. -/
def replies4 : Nat → StatusResponse := fun n =>
  if n = 1 ∨ n = 2 then queuedR else if n = 3 then processingR else completedR

/-! ## Helper lemmas -/

theorem indexOf_append_cons_self (a : Char) (l1 l2 : List Char) (h : a ∉ l1) :
    (l1 ++ a :: l2).indexOf a = l1.length := by
  induction l1 with
  | nil => simp [List.indexOf_cons_self]
  | cons x xs ih =>
    have hx : x ≠ a := fun he => h (he ▸ List.mem_cons_self x xs)
    have hxs : a ∉ xs := fun hm => h (List.mem_cons_of_mem x hm)
    simp only [List.cons_append, List.indexOf_cons_ne _ hx, ih hxs, List.length_cons]

theorem base_append_ne (s : String) : BASE_URL ++ s ≠ s := by
  intro h
  have hlen := congrArg String.length h
  rw [String.length_append] at hlen
  have hb : BASE_URL.length = 21 := by decide
  omega

theorem base_slash_append_ne (s : String) : BASE_URL ++ "/" ++ s ≠ s := by
  intro h
  have hlen := congrArg String.length h
  rw [String.length_append, String.length_append] at hlen
  have hb : BASE_URL.length = 21 := by decide
  have hs : ("/").length = 1 := by decide
  omega

theorem base_append_ne_base_slash_append (s : String) :
    BASE_URL ++ s ≠ BASE_URL ++ "/" ++ s := by
  intro h
  have hlen := congrArg String.length h
  rw [String.length_append, String.length_append, String.length_append] at hlen
  have hs : ("/").length = 1 := by decide
  omega

theorem base_append_startsWith_https (s : String) :
    strStartsWith (BASE_URL ++ s) "https://" = true := by
  apply List.isPrefixOf_iff_prefix.mpr
  refine ⟨"texcompile.ru".data ++ s.data, ?_⟩
  rw [String.data_append, ← List.append_assoc]
  rfl

/-! ## Claim theorems -/

/-- C2: the duration formatter is pure and total on every millisecond
count m: it uses the seconds-only form iff m < 60000, the minutes+seconds
form iff 60000 <= m < 3600000, and the hours+minutes form iff m >= 3600000;
and formatting an absent duration yields the explicit unknown marker
rather than "0". -/
theorem format_milliseconds_tiers :
    (∀ m : Nat, m < 60000 → format_milliseconds m = toString (m / 1000) ++ " сек.") ∧
    (∀ m : Nat, 60000 ≤ m → m < 3600000 →
      format_milliseconds m =
        toString (m / 1000 / 60) ++ " мин. " ++ toString (m / 1000 % 60) ++ " сек.") ∧
    (∀ m : Nat, 3600000 ≤ m →
      format_milliseconds m =
        toString (m / 1000 / 60 / 60) ++ " ч. " ++ toString (m / 1000 / 60 % 60) ++ " м.") ∧
    (∀ sd : StatusData, sd.duration = none → sd.format_duration = "неизвестно") ∧
    "неизвестно" ≠ "0" ∧ "неизвестно" ≠ format_milliseconds 0 := by
  refine ⟨?_, ?_, ?_, ?_, by decide, by decide⟩
  · intro m h
    simp only [format_milliseconds]
    rw [if_pos (by omega)]
  · intro m h1 h2
    simp only [format_milliseconds]
    rw [if_neg (by omega), if_pos (by omega)]
  · intro m h
    simp only [format_milliseconds]
    rw [if_neg (by omega), if_neg (by omega)]
  · intro sd h
    simp [StatusData.format_duration, h]

/-- C3: normalize_url r equals r verbatim iff r starts with http:// or
https://; equals the base address concatenated directly with r iff r does
not start with those prefixes but starts with "/"; and otherwise equals
the base address joined to r with a "/" separator. -/
theorem normalize_url_cases :
    ∀ r : String,
      (normalize_url r = r ↔
        (strStartsWith r "http://" = true ∨ strStartsWith r "https://" = true)) ∧
      (normalize_url r = BASE_URL ++ r ↔
        (¬(strStartsWith r "http://" = true ∨ strStartsWith r "https://" = true) ∧
          strStartsWith r "/" = true)) ∧
      (normalize_url r = BASE_URL ++ "/" ++ r ↔
        (¬(strStartsWith r "http://" = true ∨ strStartsWith r "https://" = true) ∧
          strStartsWith r "/" = false)) := by
  intro r
  by_cases hc : (strStartsWith r "http://" || strStartsWith r "https://") = true
  · have hn : normalize_url r = r := by simp [normalize_url, hc]
    rw [Bool.or_eq_true] at hc
    refine ⟨⟨fun _ => hc, fun _ => hn⟩, ?_, ?_⟩
    · constructor
      · intro h; exact absurd (hn.symm.trans h) (fun he => base_append_ne r he.symm)
      · intro h; exact absurd hc h.1
    · constructor
      · intro h; exact absurd (hn.symm.trans h) (fun he => base_slash_append_ne r he.symm)
      · intro h; exact absurd hc h.1
  · have hc' : ¬(strStartsWith r "http://" = true ∨ strStartsWith r "https://" = true) := by
      rw [← Bool.or_eq_true]; exact hc
    by_cases hs : strStartsWith r "/" = true
    · have hn : normalize_url r = BASE_URL ++ r := by simp [normalize_url, hc, hs]
      refine ⟨?_, ⟨fun _ => ⟨hc', hs⟩, fun _ => hn⟩, ?_⟩
      · constructor
        · intro h; exact absurd (hn.symm.trans h) (base_append_ne r)
        · intro h; exact absurd h hc'
      · constructor
        · intro h; exact absurd (hn.symm.trans h) (base_append_ne_base_slash_append r)
        · intro h; rw [h.2] at hs; exact absurd hs (by decide)
    · have hsf : strStartsWith r "/" = false := by
        cases hb : strStartsWith r "/" with
        | true => exact absurd hb hs
        | false => rfl
      have hn : normalize_url r = BASE_URL ++ "/" ++ r := by
        simp [normalize_url, hc, hsf]
      refine ⟨?_, ?_, ⟨fun _ => ⟨hc', hsf⟩, fun _ => hn⟩⟩
      · constructor
        · intro h; exact absurd (hn.symm.trans h) (base_slash_append_ne r)
        · intro h; exact absurd h hc'
      · constructor
        · intro h
          exact absurd (hn.symm.trans h).symm (base_append_ne_base_slash_append r)
        · intro h; rw [h.2] at hsf; exact absurd hsf (by decide)

/-- C10: for every input string r, normalize_url r starts with http:// or
https:// (it is always an absolute address), and normalize_url is
idempotent. -/
theorem normalize_url_absolute_idem :
    ∀ r : String,
      (strStartsWith (normalize_url r) "http://" = true ∨
        strStartsWith (normalize_url r) "https://" = true) ∧
      normalize_url (normalize_url r) = normalize_url r := by
  intro r
  have habs : strStartsWith (normalize_url r) "http://" = true ∨
      strStartsWith (normalize_url r) "https://" = true := by
    by_cases hc : (strStartsWith r "http://" || strStartsWith r "https://") = true
    · have hn : normalize_url r = r := by simp [normalize_url, hc]
      rw [hn, ← Bool.or_eq_true]; exact hc
    · by_cases hs : strStartsWith r "/" = true
      · have hn : normalize_url r = BASE_URL ++ r := by simp [normalize_url, hc, hs]
        rw [hn]; exact Or.inr (base_append_startsWith_https r)
      · have hsf : strStartsWith r "/" = false := by
          cases hb : strStartsWith r "/" with
          | true => exact absurd hb hs
          | false => rfl
        have hn : normalize_url r = BASE_URL ++ "/" ++ r := by
          simp [normalize_url, hc, hsf]
        rw [hn, String.append_assoc]
        exact Or.inr (base_append_startsWith_https ("/" ++ r))
  refine ⟨habs, ?_⟩
  have hcond : (strStartsWith (normalize_url r) "http://" ||
      strStartsWith (normalize_url r) "https://") = true := by
    rw [Bool.or_eq_true]; exact habs
  have key : ∀ x : String,
      (strStartsWith x "http://" || strStartsWith x "https://") = true →
      normalize_url x = x := by
    intro x hx; simp [normalize_url, hx]
  exact key _ hcond

/-- C2 witness: the tier theorem applied at 12000 ms, 72000 ms,
7260000 ms, and at an absent duration. -/
theorem format_milliseconds_tiers_witness :
    format_milliseconds 12000 = "12 сек." ∧
    format_milliseconds 72000 = "1 мин. 12 сек." ∧
    format_milliseconds 7260000 = "2 ч. 1 м." ∧
    ({ status := "Queued", download_url := none, error_message := none,
       duration := none, queue_position := none } : StatusData).format_duration =
      "неизвестно" := by
  refine ⟨?_, ?_, ?_, ?_⟩
  · rw [format_milliseconds_tiers.1 12000 (by decide)]; decide
  · rw [format_milliseconds_tiers.2.1 72000 (by decide) (by decide)]; decide
  · rw [format_milliseconds_tiers.2.2.1 7260000 (by decide)]; decide
  · exact format_milliseconds_tiers.2.2.2.1 _ rfl

theorem zip_not_tex (f : String) (hz : strEndsWith f ".zip" = true) :
    strEndsWith f ".tex" = false := by
  by_contra h
  have ht : strEndsWith f ".tex" = true := by
    cases hb : strEndsWith f ".tex" with
    | true => rfl
    | false => exact absurd hb h
  have h1 : (".zip").data <:+ f.data := List.isSuffixOf_iff_suffix.mp hz
  have h2 : (".tex").data <:+ f.data := List.isSuffixOf_iff_suffix.mp ht
  rw [List.suffix_iff_eq_drop] at h1 h2
  have hl1 : (".zip").data.length = 4 := by decide
  have hl2 : (".tex").data.length = 4 := by decide
  rw [hl1] at h1
  rw [hl2] at h2
  exact absurd (h1.trans h2.symm) (by decide)

/-- C4: every file name without a recognized .tex or .zip ending makes
upload_file fail with UnsupportedFileType before issuing any HTTP
request; names ending in .tex get MIME type text/x-tex and names ending
in .zip get application/zip. -/
theorem mime_and_reject_before_request :
    (∀ f : String, strEndsWith f ".tex" = false → strEndsWith f ".zip" = false →
      ∀ r : UploadResponse,
        upload_file f r = { result := .error .unsupportedFileType, requests := 0 }) ∧
    (∀ f : String, strEndsWith f ".tex" = true →
      mime_type_from_filename f = .ok "text/x-tex") ∧
    (∀ f : String, strEndsWith f ".zip" = true →
      mime_type_from_filename f = .ok "application/zip") := by
  refine ⟨?_, ?_, ?_⟩
  · intro f ht hz r
    simp [upload_file, mime_type_from_filename, ht, hz]
  · intro f ht
    simp [mime_type_from_filename, ht]
  · intro f hz
    simp [mime_type_from_filename, hz, zip_not_tex f hz]

/-- C4 witness: the theorem applied at "report", "paper.tex" and
"archive.zip". -/
theorem mime_and_reject_before_request_witness :
    upload_file "report" { success := true, data := none, error := none, message := none } =
      { result := .error .unsupportedFileType, requests := 0 } ∧
    mime_type_from_filename "paper.tex" = .ok "text/x-tex" ∧
    mime_type_from_filename "archive.zip" = .ok "application/zip" := by
  refine ⟨?_, ?_, ?_⟩
  · exact mime_and_reject_before_request.1 "report" (by decide) (by decide) _
  · exact mime_and_reject_before_request.2.1 "paper.tex" (by decide)
  · exact mime_and_reject_before_request.2.2 "archive.zip" (by decide)

/-- C6: when an upload envelope has success=false, upload_file fails with
the protocol error whose text is the envelope's error field if present,
else its message field, else the generic fallback; for the envelope with
error "file too large" the error carries exactly that text. -/
theorem upload_error_text_selection :
    (∀ (f : String) (r : UploadResponse), (mime_type_from_filename f).isOk = true →
      r.success = false →
      ((∀ e, r.error = some e → (upload_file f r).result = .error (.uploadFailed e)) ∧
       (∀ m, r.error = none → r.message = some m →
         (upload_file f r).result = .error (.uploadFailed m)) ∧
       (r.error = none → r.message = none →
         (upload_file f r).result = .error (.uploadFailed "Unknown error")))) ∧
    upload_file "doc.tex"
        { success := false, data := none, error := some "file too large",
          message := none } =
      { result := .error (.uploadFailed "file too large"), requests := 1 } := by
  constructor
  · intro f r hmime hsucc
    cases hm : mime_type_from_filename f with
    | error e => rw [hm] at hmime; simp [Except.isOk, Except.toBool] at hmime
    | ok v =>
      refine ⟨?_, ?_, ?_⟩
      · intro e he
        simp [upload_file, hm, hsucc, he, Option.or]
      · intro m he hmsg
        simp [upload_file, hm, hsucc, he, hmsg, Option.or]
      · intro he hmsg
        simp [upload_file, hm, hsucc, he, hmsg, Option.or]
  · decide

/-- C6 witness: the theorem applied at concrete failure envelopes with
error set, message set, and neither set. -/
theorem upload_error_text_selection_witness :
    (upload_file "doc.tex"
        { success := false, data := none, error := some "file too large",
          message := none }).result = .error (.uploadFailed "file too large") ∧
    (upload_file "doc.tex"
        { success := false, data := none, error := none,
          message := some "try later" }).result = .error (.uploadFailed "try later") ∧
    (upload_file "doc.tex"
        { success := false, data := none, error := none,
          message := none }).result = .error (.uploadFailed "Unknown error") := by
  have h := upload_error_text_selection.1 "doc.tex"
  refine ⟨?_, ?_, ?_⟩
  · exact (h ⟨false, none, some "file too large", none⟩ (by decide) rfl).1 "file too large" rfl
  · exact (h ⟨false, none, none, some "try later"⟩ (by decide) rfl).2.1 "try later" rfl rfl
  · exact (h ⟨false, none, none, none⟩ (by decide) rfl).2.2 rfl rfl

theorem poll_step_queued (replies : Nat → StatusResponse) (remaining attempt : Nat)
    (sd : StatusData) (hs : (replies attempt).success = true)
    (hd : (replies attempt).data = some sd)
    (hst : sd.compilation_status = .Queued) :
    poll_status_aux replies (remaining + 1) attempt =
      step_continue
        ("Status: Queued" ++ queue_info sd.queue_position
          ++ " | Time in queue: " ++ sd.format_duration)
        attempt (poll_status_aux replies remaining (attempt + 1)) := by
  simp [poll_status_aux, hs, hd, hst]

theorem poll_step_processing (replies : Nat → StatusResponse) (remaining attempt : Nat)
    (sd : StatusData) (hs : (replies attempt).success = true)
    (hd : (replies attempt).data = some sd)
    (hst : sd.compilation_status = .Processing) :
    poll_status_aux replies (remaining + 1) attempt =
      step_continue ("Status: Processing... | Time: " ++ sd.format_duration)
        attempt (poll_status_aux replies remaining (attempt + 1)) := by
  simp [poll_status_aux, hs, hd, hst]

theorem poll_step_unknown (replies : Nat → StatusResponse) (remaining attempt : Nat)
    (sd : StatusData) (s : String) (hs : (replies attempt).success = true)
    (hd : (replies attempt).data = some sd)
    (hst : sd.compilation_status = .Unknown s) :
    poll_status_aux replies (remaining + 1) attempt =
      step_continue ("Status: " ++ s ++ " (unknown)")
        attempt (poll_status_aux replies remaining (attempt + 1)) := by
  simp [poll_status_aux, hs, hd, hst]

theorem poll_step_completed_some (replies : Nat → StatusResponse)
    (remaining attempt : Nat) (sd : StatusData) (url : String)
    (hs : (replies attempt).success = true)
    (hd : (replies attempt).data = some sd)
    (hst : sd.compilation_status = .Completed)
    (hu : sd.download_url = some url) :
    poll_status_aux replies (remaining + 1) attempt =
      { outcome := .ok url, requests := 1, sleeps := [],
        log := ["Status: Completed! | Compilation time: " ++ sd.format_duration] } := by
  simp [poll_status_aux, hs, hd, hst, hu]

theorem poll_step_completed_none (replies : Nat → StatusResponse)
    (remaining attempt : Nat) (sd : StatusData)
    (hs : (replies attempt).success = true)
    (hd : (replies attempt).data = some sd)
    (hst : sd.compilation_status = .Completed)
    (hu : sd.download_url = none) :
    poll_status_aux replies (remaining + 1) attempt =
      { outcome := .error .noDownloadUrl, requests := 1, sleeps := [],
        log := ["Status: Completed! | Compilation time: " ++ sd.format_duration] } := by
  simp [poll_status_aux, hs, hd, hst, hu]

theorem poll_step_failed (replies : Nat → StatusResponse) (remaining attempt : Nat)
    (sd : StatusData) (hs : (replies attempt).success = true)
    (hd : (replies attempt).data = some sd)
    (hst : sd.compilation_status = .Failed) :
    poll_status_aux replies (remaining + 1) attempt =
      { outcome := .error (.compilationFailed sd.format_duration
          (sd.error_message.getD "Unknown error")),
        requests := 1, sleeps := [], log := [] } := by
  simp [poll_status_aux, hs, hd, hst]


theorem okNonTerminal_elim (r : StatusResponse) (h : okNonTerminal r = true) :
    r.success = true ∧ ∃ sd, r.data = some sd ∧
      (sd.compilation_status = .Queued ∨ sd.compilation_status = .Processing ∨
        ∃ s, sd.compilation_status = .Unknown s) := by
  unfold okNonTerminal at h
  rw [Bool.and_eq_true] at h
  obtain ⟨h1, h2⟩ := h
  refine ⟨h1, ?_⟩
  cases hd : r.data with
  | none => rw [hd] at h2; exact absurd (h2 : false = true) (by decide)
  | some sd =>
    rw [hd] at h2
    have h3 : isNonTerminalStatus sd.compilation_status = true := h2
    refine ⟨sd, rfl, ?_⟩
    cases hst : sd.compilation_status with
    | Queued => exact Or.inl rfl
    | Processing => exact Or.inr (Or.inl rfl)
    | Unknown s => exact Or.inr (Or.inr ⟨s, rfl⟩)
    | Completed => rw [hst] at h3; exact absurd h3 (by decide)
    | Failed => rw [hst] at h3; exact absurd h3 (by decide)

theorem okTerminal_elim (r : StatusResponse) (h : okTerminal r = true) :
    r.success = true ∧ ∃ sd, r.data = some sd ∧
      (sd.compilation_status = .Completed ∨ sd.compilation_status = .Failed) := by
  unfold okTerminal at h
  rw [Bool.and_eq_true] at h
  obtain ⟨h1, h2⟩ := h
  refine ⟨h1, ?_⟩
  cases hd : r.data with
  | none => rw [hd] at h2; exact absurd (h2 : false = true) (by decide)
  | some sd =>
    rw [hd] at h2
    have h3 : isTerminalStatus sd.compilation_status = true := h2
    refine ⟨sd, rfl, ?_⟩
    cases hst : sd.compilation_status with
    | Completed => exact Or.inl rfl
    | Failed => exact Or.inr rfl
    | Queued => rw [hst] at h3; exact absurd h3 (by decide)
    | Processing => rw [hst] at h3; exact absurd h3 (by decide)
    | Unknown s => rw [hst] at h3; simp [isTerminalStatus] at h3

theorem poll_aux_terminal_counts :
    ∀ (remaining : Nat) (replies : Nat → StatusResponse) (attempt k : Nat),
      attempt + remaining = MAX_POLL_ATTEMPTS + 1 →
      attempt ≤ k → k ≤ MAX_POLL_ATTEMPTS →
      (∀ i, attempt ≤ i → i < k → okNonTerminal (replies i) = true) →
      okTerminal (replies k) = true →
      (poll_status_aux replies remaining attempt).requests = k + 1 - attempt ∧
      (poll_status_aux replies remaining attempt).sleeps =
        List.replicate (k - attempt) POLL_INTERVAL_SECS := by
  intro remaining
  induction remaining with
  | zero =>
    intro replies attempt k hsum hak hk _ _
    have hM : MAX_POLL_ATTEMPTS = 120 := rfl
    omega
  | succ n ih =>
    intro replies attempt k hsum hak hk hnt hterm
    have hM : MAX_POLL_ATTEMPTS = 120 := rfl
    rcases Nat.lt_or_ge attempt k with hlt | hge
    · obtain ⟨hs, sd, hd, hst⟩ := okNonTerminal_elim _ (hnt attempt le_rfl hlt)
      have hrec := ih replies (attempt + 1) k (by omega) (by omega) hk
        (fun i hi1 hi2 => hnt i (by omega) hi2) hterm
      have hattM : attempt < MAX_POLL_ATTEMPTS := by omega
      have hsub : k - attempt = (k - (attempt + 1)) + 1 := by omega
      have hstep : poll_status_aux replies (n + 1) attempt =
          step_continue
            (match sd.compilation_status with
             | .Queued => "Status: Queued" ++ queue_info sd.queue_position
                 ++ " | Time in queue: " ++ sd.format_duration
             | .Processing => "Status: Processing... | Time: " ++ sd.format_duration
             | .Unknown s => "Status: " ++ s ++ " (unknown)"
             | _ => "")
            attempt (poll_status_aux replies n (attempt + 1)) := by
        rcases hst with hq | hp | ⟨s, hu⟩
        · rw [poll_step_queued replies n attempt sd hs hd hq, hq]
        · rw [poll_step_processing replies n attempt sd hs hd hp, hp]
        · rw [poll_step_unknown replies n attempt sd s hs hd hu, hu]
      rw [hstep]
      simp only [step_continue]
      refine ⟨?_, ?_⟩
      · rw [hrec.1]; omega
      · rw [if_pos hattM, hrec.2, hsub, List.replicate_succ]
    · have heq : attempt = k := le_antisymm hak hge
      subst heq
      obtain ⟨hs, sd, hd, hst⟩ := okTerminal_elim _ hterm
      have hreq : attempt + 1 - attempt = 1 := by omega
      have hsle : attempt - attempt = 0 := by omega
      rcases hst with hc | hf
      · cases hu : sd.download_url with
        | some url =>
          rw [poll_step_completed_some replies n attempt sd url hs hd hc hu]
          exact ⟨by rw [hreq], by rw [hsle]; rfl⟩
        | none =>
          rw [poll_step_completed_none replies n attempt sd hs hd hc hu]
          exact ⟨by rw [hreq], by rw [hsle]; rfl⟩
      · rw [poll_step_failed replies n attempt sd hs hd hf]
        exact ⟨by rw [hreq], by rw [hsle]; rfl⟩

theorem poll_aux_timeout :
    ∀ (remaining : Nat) (replies : Nat → StatusResponse) (attempt : Nat),
      attempt + remaining = MAX_POLL_ATTEMPTS + 1 →
      (∀ i, attempt ≤ i → i ≤ MAX_POLL_ATTEMPTS → okNonTerminal (replies i) = true) →
      (poll_status_aux replies remaining attempt).outcome =
        .error (.pollTimeout MAX_POLL_ATTEMPTS) ∧
      (poll_status_aux replies remaining attempt).requests = remaining ∧
      (poll_status_aux replies remaining attempt).sleeps =
        List.replicate (remaining - 1) POLL_INTERVAL_SECS := by
  intro remaining
  induction remaining with
  | zero => intro replies attempt _ _; exact ⟨rfl, rfl, rfl⟩
  | succ n ih =>
    intro replies attempt hsum hnt
    have hM : MAX_POLL_ATTEMPTS = 120 := rfl
    have hattle : attempt ≤ MAX_POLL_ATTEMPTS := by omega
    obtain ⟨hs, sd, hd, hst⟩ := okNonTerminal_elim _ (hnt attempt le_rfl hattle)
    have hrec := ih replies (attempt + 1) (by omega)
      (fun i hi1 hi2 => hnt i (by omega) hi2)
    have hstep : poll_status_aux replies (n + 1) attempt =
        step_continue
          (match sd.compilation_status with
           | .Queued => "Status: Queued" ++ queue_info sd.queue_position
               ++ " | Time in queue: " ++ sd.format_duration
           | .Processing => "Status: Processing... | Time: " ++ sd.format_duration
           | .Unknown s => "Status: " ++ s ++ " (unknown)"
           | _ => "")
          attempt (poll_status_aux replies n (attempt + 1)) := by
      rcases hst with hq | hp | ⟨s, hu⟩
      · rw [poll_step_queued replies n attempt sd hs hd hq, hq]
      · rw [poll_step_processing replies n attempt sd hs hd hp, hp]
      · rw [poll_step_unknown replies n attempt sd s hs hd hu, hu]
    rw [hstep]
    simp only [step_continue]
    refine ⟨hrec.1, ?_, ?_⟩
    · rw [hrec.2.1]
    · by_cases hlt : attempt < MAX_POLL_ATTEMPTS
      · rw [if_pos hlt, hrec.2.2]
        cases n with
        | zero => exact absurd hlt (by omega)
        | succ m => simp [List.replicate_succ]
      · rw [if_neg hlt, hrec.2.2]
        have hn0 : n = 0 := by omega
        subst hn0
        rfl

/-- C1: poll_status polls at the fixed 5-second interval for at most 120
attempts, sleeping only between attempts: for every reply stream whose
first terminal envelope is at attempt k with 1 <= k <= 120, preceded only
by non-terminal success envelopes, it issues exactly k status requests
and sleeps exactly k-1 times (5 seconds each); given 120 consecutive
non-terminal envelopes it fails with the poll timeout after exactly 120
requests and 119 sleeps, with no sleep after the final attempt. -/
theorem poll_status_counts :
    (∀ (replies : Nat → StatusResponse) (k : Nat), 1 ≤ k → k ≤ 120 →
      (∀ i, 1 ≤ i → i < k → okNonTerminal (replies i) = true) →
      okTerminal (replies k) = true →
      (poll_status replies).requests = k ∧
      (poll_status replies).sleeps = List.replicate (k - 1) 5) ∧
    (∀ replies : Nat → StatusResponse,
      (∀ i, 1 ≤ i → i ≤ 120 → okNonTerminal (replies i) = true) →
      (poll_status replies).outcome = .error (.pollTimeout 120) ∧
      (poll_status replies).requests = 120 ∧
      (poll_status replies).sleeps = List.replicate 119 5) := by
  constructor
  · intro replies k h1 h2 hnt ht
    have h := poll_aux_terminal_counts MAX_POLL_ATTEMPTS replies 1 k (by decide) h1 h2 hnt ht
    constructor
    · show (poll_status_aux replies MAX_POLL_ATTEMPTS 1).requests = k
      rw [h.1]; omega
    · show (poll_status_aux replies MAX_POLL_ATTEMPTS 1).sleeps = List.replicate (k - 1) 5
      exact h.2
  · intro replies hnt
    have h := poll_aux_timeout MAX_POLL_ATTEMPTS replies 1 (by decide) hnt
    exact ⟨h.1, h.2.1, by simpa using h.2.2⟩

/-- C1 witness: the counting theorem applied to the example sequence
Queued, Queued, Processing, Completed (4 requests, 3 sleeps) and to the
all-Queued stream (timeout, 120 requests, 119 sleeps). -/
theorem poll_status_counts_witness :
    (poll_status replies4).requests = 4 ∧
    (poll_status replies4).sleeps = List.replicate 3 5 ∧
    (poll_status (fun _ => queuedR)).outcome = .error (.pollTimeout 120) ∧
    (poll_status (fun _ => queuedR)).requests = 120 ∧
    (poll_status (fun _ => queuedR)).sleeps = List.replicate 119 5 := by
  have h1 := poll_status_counts.1 replies4 4 (by decide) (by decide)
    (by intro i hi1 hi2; interval_cases i <;> decide) (by decide)
  have h2 := poll_status_counts.2 (fun _ => queuedR)
    (by intro i hi1 hi2; exact (by decide : okNonTerminal queuedR = true))
  exact ⟨h1.1, h1.2, h2.1, h2.2.1, h2.2.2⟩

/-- C5 (amended): when a poll returns a success envelope whose status is
Failed, the loop aborts at once with the compilation-failed error
carrying the formatted elapsed duration and the service error message,
substituting "Unknown error" (the code capitalizes the fallback) when the
message is absent, and issues no further requests; for
Failed(message="missing package", duration=12000) the error carries
"12 сек." and "missing package". -/
theorem failed_aborts_immediately :
    (∀ (replies : Nat → StatusResponse) (remaining attempt : Nat) (sd : StatusData),
      (replies attempt).success = true → (replies attempt).data = some sd →
      sd.compilation_status = .Failed →
      poll_status_aux replies (remaining + 1) attempt =
        { outcome := .error (.compilationFailed sd.format_duration
            (sd.error_message.getD "Unknown error")),
          requests := 1, sleeps := [], log := [] }) ∧
    (∀ replies : Nat → StatusResponse, replies 1 = failedR →
      poll_status replies =
        { outcome := .error (.compilationFailed "12 сек." "missing package"),
          requests := 1, sleeps := [], log := [] }) := by
  constructor
  · intro replies remaining attempt sd hs hd hst
    exact poll_step_failed replies remaining attempt sd hs hd hst
  · intro replies h1
    show poll_status_aux replies MAX_POLL_ATTEMPTS 1 = _
    have hs : (replies 1).success = true := by rw [h1]; rfl
    have hd : (replies 1).data =
        some ⟨"Failed", none, some "missing package", some 12000, none⟩ := by
      rw [h1]; rfl
    have hst : (⟨"Failed", none, some "missing package", some 12000,
        none⟩ : StatusData).compilation_status = .Failed := by decide
    rw [show MAX_POLL_ATTEMPTS = 119 + 1 from rfl,
      poll_step_failed replies 119 1 _ hs hd hst]
    decide

/-- C5 witness: the theorem applied to the stream of Failed envelopes
with message "missing package" and duration 12000. -/
theorem failed_aborts_immediately_witness :
    poll_status (fun _ => failedR) =
      { outcome := .error (.compilationFailed "12 сек." "missing package"),
        requests := 1, sleeps := [], log := [] } :=
  failed_aborts_immediately.2 (fun _ => failedR) rfl

/-- C5 counterexample: with the error message absent, the fallback text
the error carries is "Unknown error", not the lowercase "unknown error"
the claim states. -/
theorem failed_fallback_capitalized :
    (poll_status (fun _ => failedNoMsgR)).outcome =
      .error (.compilationFailed "неизвестно" "Unknown error") ∧
    (poll_status (fun _ => failedNoMsgR)).outcome ≠
      .error (.compilationFailed "неизвестно" "unknown error") := by
  constructor
  · rfl
  · decide

/-- C7: a required field absent from a success envelope fails the
operation: a success upload envelope without a task identifier makes
upload_file fail with the missing-task-id error; a Completed status
without a download reference makes the poll loop fail rather than return;
and when the reference is present on Completed it is returned immediately
with no further polling. -/
theorem missing_required_fields :
    (∀ (f : String) (r : UploadResponse), (mime_type_from_filename f).isOk = true →
      r.success = true → r.data = none →
      upload_file f r = { result := .error .noTaskId, requests := 1 }) ∧
    (∀ (replies : Nat → StatusResponse) (remaining attempt : Nat) (sd : StatusData),
      (replies attempt).success = true → (replies attempt).data = some sd →
      sd.compilation_status = .Completed → sd.download_url = none →
      poll_status_aux replies (remaining + 1) attempt =
        { outcome := .error .noDownloadUrl, requests := 1, sleeps := [],
          log := ["Status: Completed! | Compilation time: " ++ sd.format_duration] }) ∧
    (∀ (replies : Nat → StatusResponse) (remaining attempt : Nat) (sd : StatusData)
      (url : String),
      (replies attempt).success = true → (replies attempt).data = some sd →
      sd.compilation_status = .Completed → sd.download_url = some url →
      poll_status_aux replies (remaining + 1) attempt =
        { outcome := .ok url, requests := 1, sleeps := [],
          log := ["Status: Completed! | Compilation time: " ++ sd.format_duration] }) := by
  refine ⟨?_, ?_, ?_⟩
  · intro f r hmime hsucc hdata
    cases hm : mime_type_from_filename f with
    | error e => rw [hm] at hmime; simp [Except.isOk, Except.toBool] at hmime
    | ok v => simp [upload_file, hm, hsucc, hdata]
  · intro replies remaining attempt sd hs hd hc hu
    exact poll_step_completed_none replies remaining attempt sd hs hd hc hu
  · intro replies remaining attempt sd url hs hd hc hu
    exact poll_step_completed_some replies remaining attempt sd url hs hd hc hu

/-- C7 witness: the theorem applied to a success upload envelope without
data, a Completed envelope without a reference, and a Completed envelope
with one. -/
theorem missing_required_fields_witness :
    upload_file "doc.tex"
        { success := true, data := none, error := none, message := none } =
      { result := .error .noTaskId, requests := 1 } ∧
    poll_status (fun _ => completedNoUrlR) =
      { outcome := .error .noDownloadUrl, requests := 1, sleeps := [],
        log := ["Status: Completed! | Compilation time: неизвестно"] } ∧
    poll_status (fun _ => completedR) =
      { outcome := .ok "/files/out.pdf", requests := 1, sleeps := [],
        log := ["Status: Completed! | Compilation time: 12 сек."] } := by
  refine ⟨?_, ?_, ?_⟩
  · exact missing_required_fields.1 "doc.tex" ⟨true, none, none, none⟩ (by decide) rfl rfl
  · have h := missing_required_fields.2.1 (fun _ => completedNoUrlR) 119 1
      ⟨"Completed", none, none, none, none⟩ rfl rfl (by decide) rfl
    exact h.trans (by decide)
  · have h := missing_required_fields.2.2 (fun _ => completedR) 119 1
      ⟨"Completed", some "/files/out.pdf", none, some 12000, none⟩ "/files/out.pdf"
      rfl rfl (by decide) rfl
    exact h.trans (by decide)

/-- C9 (amended): the Queued progress line includes the queue position
exactly when the envelope carries a positive one (a carried position of 0
is suppressed like an absent one); an absent queue position renders
nothing, in particular never as position 0; and Queued, Processing and
Unknown polls continue the loop rather than terminating it. -/
theorem queued_progress_and_continue :
    (∀ pos : Nat, 0 < pos →
      queue_info (some pos) = " (position: " ++ toString pos ++ ")") ∧
    queue_info (some 0) = "" ∧
    queue_info none = "" ∧
    (∀ (replies : Nat → StatusResponse) (remaining attempt : Nat) (sd : StatusData),
      (replies attempt).success = true → (replies attempt).data = some sd →
      sd.compilation_status = .Queued →
      poll_status_aux replies (remaining + 1) attempt =
        step_continue
          ("Status: Queued" ++ queue_info sd.queue_position
            ++ " | Time in queue: " ++ sd.format_duration)
          attempt (poll_status_aux replies remaining (attempt + 1))) ∧
    (∀ (replies : Nat → StatusResponse) (remaining attempt : Nat) (sd : StatusData),
      (replies attempt).success = true → (replies attempt).data = some sd →
      sd.compilation_status = .Processing →
      poll_status_aux replies (remaining + 1) attempt =
        step_continue ("Status: Processing... | Time: " ++ sd.format_duration)
          attempt (poll_status_aux replies remaining (attempt + 1))) ∧
    (∀ (replies : Nat → StatusResponse) (remaining attempt : Nat) (sd : StatusData)
      (s : String),
      (replies attempt).success = true → (replies attempt).data = some sd →
      sd.compilation_status = .Unknown s →
      poll_status_aux replies (remaining + 1) attempt =
        step_continue ("Status: " ++ s ++ " (unknown)")
          attempt (poll_status_aux replies remaining (attempt + 1))) := by
  refine ⟨?_, rfl, rfl, ?_, ?_, ?_⟩
  · intro pos hpos
    simp [queue_info, Option.filter, hpos]
  · intro replies remaining attempt sd hs hd hq
    exact poll_step_queued replies remaining attempt sd hs hd hq
  · intro replies remaining attempt sd hs hd hp
    exact poll_step_processing replies remaining attempt sd hs hd hp
  · intro replies remaining attempt sd s hs hd hu
    exact poll_step_unknown replies remaining attempt sd s hs hd hu

/-- C9 witness: the theorem applied at position 3 and at a concrete
Queued envelope, showing the loop continues to the next attempt. -/
theorem queued_progress_and_continue_witness :
    queue_info (some 3) = " (position: 3)" ∧
    poll_status_aux (fun _ => queuedR) (119 + 1) 1 =
      step_continue "Status: Queued | Time in queue: неизвестно" 1
        (poll_status_aux (fun _ => queuedR) 119 2) := by
  constructor
  · exact (queued_progress_and_continue.1 3 (by decide)).trans (by decide)
  · have h := queued_progress_and_continue.2.2.2.1 (fun _ => queuedR) 119 1
      ⟨"Queued", none, none, none, none⟩ rfl rfl (by decide)
    exact h.trans
      (congrArg (fun e => step_continue e 1 (poll_status_aux (fun _ => queuedR) 119 2))
        (by decide))

/-- C9 counterexample: an envelope carrying queue position 0 emits a
progress line with no position rendering at all, refuting the claim that
the observation includes the queue position whenever one is carried. -/
theorem queued_zero_position_suppressed :
    queuedPos0R.data = some ⟨"Queued", none, none, none, some 0⟩ ∧
    (poll_status (fun _ => queuedPos0R)).log.head? =
      some "Status: Queued | Time in queue: неизвестно" ∧
    ¬ (" (position: 0)").data <:+: ("Status: Queued | Time in queue: неизвестно").data := by
  refine ⟨rfl, ?_, by decide⟩
  rfl


theorem string_eq_of_data_eq (a b : String) (h : a.data = b.data) : a = b := by
  cases a
  cases b
  exact congrArg String.mk h

theorem rust_file_stem_strip (stem ext : String) (hstem : stem ≠ "")
    (hext : ext.data.contains '.' = false)
    (hne2 : stem ++ "." ++ ext ≠ "..") :
    rust_file_stem (stem ++ "." ++ ext) = some stem := by
  obtain ⟨c, rest, hsplit⟩ : ∃ c rest, stem.data = c :: rest := by
    cases hsd : stem.data with
    | nil => exact absurd (string_eq_of_data_eq stem "" hsd) hstem
    | cons c rest => exact ⟨c, rest, rfl⟩
  have hdata : (stem ++ "." ++ ext).data = c :: (rest ++ '.' :: ext.data) := by
    rw [String.data_append, String.data_append, hsplit]
    simp
  have h0 : stem ++ "." ++ ext ≠ "" := by
    intro h
    rw [h] at hdata
    simp at hdata
  have h1 : stem ++ "." ++ ext ≠ "." := by
    intro h
    rw [h] at hdata
    have := congrArg List.length hdata
    simp at this
  have hnotmem : '.' ∉ ext.data.reverse := by
    intro hm
    rw [List.mem_reverse] at hm
    have hc : ext.data.contains '.' = true := List.elem_eq_true_of_mem hm
    rw [hc] at hext
    exact absurd hext (by decide)
  have htail : (stem ++ "." ++ ext).data.drop 1 = rest ++ '.' :: ext.data := by
    rw [hdata]; rfl
  have hcont : ((stem ++ "." ++ ext).data.drop 1).contains '.' = true := by
    rw [htail]; simp
  have hrev : ((stem ++ "." ++ ext).data.drop 1).reverse =
      ext.data.reverse ++ '.' :: rest.reverse := by
    rw [htail]; simp
  have hidx : ((stem ++ "." ++ ext).data.drop 1).reverse.indexOf '.' =
      ext.data.length := by
    rw [hrev, indexOf_append_cons_self '.' _ _ hnotmem, List.length_reverse]
  have hlen : ((stem ++ "." ++ ext).data.drop 1).length =
      rest.length + 1 + ext.data.length := by
    rw [htail]
    simp [List.length_append]
    omega
  have htake : (stem ++ "." ++ ext).data.take (rest.length + 1) = c :: rest := by
    rw [hdata, List.take_succ_cons, List.take_left]
  have hmk : String.mk (c :: rest) = stem :=
    string_eq_of_data_eq _ _ (by rw [← hsplit])
  rw [rust_file_stem]
  rw [if_neg h0, if_neg h1, if_neg hne2, if_pos hcont]
  simp only [hidx, hlen]
  have harith : rest.length + 1 + ext.data.length - 1 - ext.data.length =
      rest.length := by omega
  rw [harith, htake, hmk]

/-- C8: the derived output name strips exactly the final extension and
appends ".pdf": for every decomposition stem ++ "." ++ ext with nonempty
stem and dot-free ext the output is stem ++ ".pdf"; in particular
"paper.tex" maps to "paper.pdf" and "archive.tar.zip" to
"archive.tar.pdf". -/
theorem generate_output_path_strips_final_ext :
    (∀ stem ext : String, stem ≠ "" → ext.data.contains '.' = false →
      stem ++ "." ++ ext ≠ ".." →
      generate_output_path (stem ++ "." ++ ext) = .ok (stem ++ ".pdf")) ∧
    generate_output_path "paper.tex" = .ok "paper.pdf" ∧
    generate_output_path "archive.tar.zip" = .ok "archive.tar.pdf" := by
  refine ⟨?_, by decide, by decide⟩
  intro stem ext hstem hext hne2
  rw [generate_output_path, rust_file_stem_strip stem ext hstem hext hne2]

/-- C8 witness: the theorem applied at "paper" "." "tex" and
"archive.tar" "." "zip". -/
theorem generate_output_path_strips_final_ext_witness :
    generate_output_path ("paper" ++ "." ++ "tex") = .ok ("paper" ++ ".pdf") ∧
    generate_output_path ("archive.tar" ++ "." ++ "zip") =
      .ok ("archive.tar" ++ ".pdf") := by
  constructor
  · exact generate_output_path_strips_final_ext.1 "paper" "tex"
      (by decide) (by decide) (by decide)
  · exact generate_output_path_strips_final_ext.1 "archive.tar" "zip"
      (by decide) (by decide) (by decide)
